import Mathlib

/-!
Verification of the `fetch_varaint` module of `pubsys`
(`src/tools/pubsys/src/repo/fetch_varaint/mod.rs`).

The module fetches one named variant image target from a signature-verified
repository, decompresses its LZ4 payload as a stream, and writes the result to
a destination file.  We embed the orchestration logic of `download_target`,
`fetch_varaint` and `run` shallowly: the external collaborators (the `tough`
repository session, the `lz4` decoder library, the operating system's
filesystem-open behaviour and the configuration resolver) are parameters whose
outcomes the embedded code scrutinises exactly as the Rust code does.  Bytes
are natural numbers below 256, the filesystem is an association list from path
strings to byte lists, and the externally observable accesses (calling
`read_target`, opening the destination file) are recorded in an event trace.
-/

namespace FetchVariant

/-- Raw bytes, as exchanged with the repository and the filesystem. -/
abbrev Bytes := List Nat

/-- The local filesystem, as a finite map from path to file content. -/
abbrev FS := List (String × Bytes)

/-- Look a path up in the filesystem; `none` means the file does not exist. -/
def fsGet : FS → String → Option Bytes
  | [], _ => none
  | (q, c) :: rest, p => if q = p then some c else fsGet rest p

/-- Store content at a path, creating the file if it is absent. -/
def fsSet : FS → String → Bytes → FS
  | [], p, c => [(p, c)]
  | (q, d) :: rest, p, c =>
      if q = p then (p, c) :: rest else (q, d) :: fsSet rest p c

/-- An `std::io::Error`, kept abstract apart from a diagnostic message. -/
inductive IOErr where
  | mk (msg : String)
deriving DecidableEq

/-- A `tough::error::Error`, kept abstract apart from a diagnostic message. -/
inductive ToughErr where
  | mk (msg : String)
deriving DecidableEq

/-- A `crate::repo::Error` (configuration loading, URL resolution, root-bytes
reading and repository loading all surface through this type), kept abstract
apart from a diagnostic message. -/
inductive RepoErr where
  | mk (msg : String)
deriving DecidableEq

/-- The error enum of `mod error` in the source, field for field: `Lz4Decode`
carries the target name and the I/O source; `WriteUpdate` carries only the I/O
source; `OpenImageFile` carries the attempted path and the I/O source;
`Repo` wraps a `crate::repo::Error`; `Stream` wraps a `tough` error;
`TargetMissing` carries the target name; `TargetName` and `TargetRead` carry
the target name and the `tough` source.  (Backtrace fields are omitted: they
carry no information the claims mention.) -/
inductive Error where
  | Lz4Decode (target : String) (source : IOErr)
  | WriteUpdate (source : IOErr)
  | OpenImageFile (path : String) (source : IOErr)
  | Repo (source : RepoErr)
  | Stream (source : ToughErr)
  | TargetMissing (target : String)
  | TargetName (target : String) (source : ToughErr)
  | TargetRead (target : String) (source : ToughErr)
deriving DecidableEq

/-- The path context recorded in an error, i.e. its `PathBuf` field:
only the `OpenImageFile` variant of the source enum has one. -/
def errorPath : Error → Option String
  | .OpenImageFile p _ => some p
  | _ => none

/-- Externally observable accesses made while downloading a target:
invoking the repository's `read_target` (network) and opening the
destination file (filesystem). -/
inductive Event where
  | readTarget (target : String)
  | openFile (path : String)
deriving DecidableEq

/-- Whether an event is a filesystem open of some path. -/
def isOpenEvent : Event → Bool
  | .openFile _ => true
  | .readTarget _ => false

/-- Outcome of `Repository::read_target` for a given name: `Ok(Some(stream))`
(the stream's verified bytes, concatenated), `Ok(None)`, or `Err(e)`. -/
inductive ReadOutcome where
  | stream (compressed : Bytes)
  | absent
  | errored (e : ToughErr)
deriving DecidableEq

/-- The `tough::Repository` collaborator as consumed by this module:
`validateName` is `TargetName::try_from` (the collaborator's target-naming
rules), `readTarget` is `Repository::read_target` keyed by the raw name. -/
structure Repository where
  validateName : String → Except ToughErr Unit
  readTarget : String → ReadOutcome

/-- The `lz4` decoder library as consumed by this module: `newDecoder` is
`lz4::Decoder::new`, which only allocates a decompression context and does not
read from the supplied reader, so its outcome is independent of the compressed
bytes (they are passed here for uniformity; the real collaborator ignores
them).  `decodeRest` is the behaviour of reading the decoder to exhaustion
during `std::io::copy`: the frame header is parsed on the first read, and the
result is the bytes decoded before either the end of the frame or the first
detected defect — an invalid frame header, malformed data, or truncation
mid-frame — paired with `some` error at that defect or `none` on clean
completion. -/
structure Lz4Lib where
  newDecoder : Bytes → Except IOErr Unit
  decodeRest : Bytes → Bytes × Option IOErr

instance {ε α : Type} [DecidableEq ε] [DecidableEq α] :
    DecidableEq (Except ε α) := fun a b =>
  match a, b with
  | .ok x, .ok y =>
      if h : x = y then .isTrue (by rw [h]) else .isFalse (by simp [h])
  | .error x, .error y =>
      if h : x = y then .isTrue (by rw [h]) else .isFalse (by simp [h])
  | .ok _, .error _ => .isFalse (by simp)
  | .error _, .ok _ => .isFalse (by simp)

/-- Result of one `download_target` invocation: the returned `Result`, the
filesystem after the call, and the trace of external accesses made. -/
structure DownloadResult where
  result : Except Error Unit
  fs : FS
  events : List Event
deriving DecidableEq

/-- `PathBuf::join` of a directory and a (relative) file name. -/
def pathJoin (dir name : String) : String := dir ++ "/" ++ name

/-- `download_target(repo, target, outdir)`.  Mirrors the source line by line:
compute `file_path = outdir.join(target)`; validate the target name
(`TargetName` on failure); call `read_target` (`TargetMissing` on `Ok(None)`,
`TargetRead` on `Err`); construct the LZ4 decoder over the bridged stream
(`Lz4Decode` on failure); open the destination with
`read(true).write(true).create(true)` — note: without `truncate` — reporting
`OpenImageFile` with the path on failure; finally `std::io::copy` the decoded
bytes into the file, reporting any copy-phase failure as `WriteUpdate`.
Because the open does not truncate and writing starts at offset zero, the
file's new content is the decoded bytes followed by whatever tail of the old
content lies beyond them. -/
def downloadTarget (lz4 : Lz4Lib) (openErr : String → Option IOErr)
    (repo : Repository) (target : String) (outdir : String) (fs0 : FS) :
    DownloadResult :=
  let file_path := pathJoin outdir target
  match repo.validateName target with
  | .error e => ⟨.error (.TargetName target e), fs0, []⟩
  | .ok _ =>
    match repo.readTarget target with
    | .absent => ⟨.error (.TargetMissing target), fs0, [.readTarget target]⟩
    | .errored e => ⟨.error (.TargetRead target e), fs0, [.readTarget target]⟩
    | .stream compressed =>
      match lz4.newDecoder compressed with
      | .error e => ⟨.error (.Lz4Decode target e), fs0, [.readTarget target]⟩
      | .ok _ =>
        match openErr file_path with
        | some e =>
            ⟨.error (.OpenImageFile file_path e), fs0,
              [.readTarget target, .openFile file_path]⟩
        | none =>
            let old := (fsGet fs0 file_path).getD []
            let dec := lz4.decodeRest compressed
            let content := dec.1 ++ old.drop dec.1.length
            let fs1 := fsSet fs0 file_path content
            match dec.2 with
            | some e =>
                ⟨.error (.WriteUpdate e), fs1,
                  [.readTarget target, .openFile file_path]⟩
            | none => ⟨.ok (), fs1, [.readTarget target, .openFile file_path]⟩

/-- The target identifier constructed by `fetch_varaint`:
`format!("{}.img.lz4", buildsys_name_friendly)`. -/
def mkTarget (buildsys_name_friendly : String) : String :=
  buildsys_name_friendly ++ ".img.lz4"

/-- `fetch_varaint`.  `loadRepo` models `root_bytes` + `RepositoryLoader::load`
over the two URLs (any failure of either surfaces through `crate::repo::Error`,
i.e. the `Repo` variant); on success the target `"{name}.img.lz4"` is
downloaded into `outdir`. -/
def fetchVaraint (loadRepo : String → String → Except RepoErr Repository)
    (lz4 : Lz4Lib) (openErr : String → Option IOErr)
    (metadataUrl targetsUrl : String) (outdir : String)
    (buildsys_name_friendly : String) (fs0 : FS) : DownloadResult :=
  match loadRepo metadataUrl targetsUrl with
  | .error e => ⟨.error (.Repo e), fs0, []⟩
  | .ok repo =>
      downloadTarget lz4 openErr repo (mkTarget buildsys_name_friendly)
        outdir fs0

/-- Whether a byte is a UTF-8 continuation byte (`10xxxxxx`). -/
def isCont (b : Nat) : Bool := 128 ≤ b && b < 192

/-- Strict UTF-8 decoding of a byte list, rejecting overlong encodings,
surrogate code points and code points beyond `U+10FFFF`, as Rust's
`str::from_utf8` does.  Returns `none` on any ill-formed input. -/
def utf8Decode : List Nat → Option (List Char)
  | [] => some []
  | b :: rest =>
    if b < 128 then
      (utf8Decode rest).map (fun cs => Char.ofNat b :: cs)
    else if 194 ≤ b && b ≤ 223 then
      match rest with
      | c1 :: rest2 =>
          if isCont c1 then
            (utf8Decode rest2).map
              (fun cs => Char.ofNat ((b - 192) * 64 + (c1 - 128)) :: cs)
          else none
      | [] => none
    else if 224 ≤ b && b ≤ 239 then
      match rest with
      | c1 :: c2 :: rest3 =>
          if isCont c1 && isCont c2 && (decide (b ≠ 224) || decide (160 ≤ c1))
              && (decide (b ≠ 237) || decide (c1 < 160)) then
            (utf8Decode rest3).map
              (fun cs =>
                Char.ofNat ((b - 224) * 4096 + (c1 - 128) * 64 + (c2 - 128))
                  :: cs)
          else none
      | _ => none
    else if 240 ≤ b && b ≤ 244 then
      match rest with
      | c1 :: c2 :: c3 :: rest4 =>
          if isCont c1 && isCont c2 && isCont c3
              && (decide (b ≠ 240) || decide (144 ≤ c1))
              && (decide (b ≠ 244) || decide (c1 < 144)) then
            (utf8Decode rest4).map
              (fun cs =>
                Char.ofNat
                  ((b - 240) * 262144 + (c1 - 128) * 4096 + (c2 - 128) * 64
                    + (c3 - 128)) :: cs)
          else none
      | _ => none
    else none

/-- `Path::to_str` on a Unix path: `some` of the decoded string exactly when
the underlying bytes are valid UTF-8, `none` otherwise. -/
def osToStr (bytes : List Nat) : Option String :=
  (utf8Decode bytes).map List.asString

/-- Outcome of `run`: either the process panicked (an `unwrap` on `None`), or
it completed with the pipeline's result, filesystem and trace. -/
inductive RunOutcome where
  | panicked
  | completed (r : DownloadResult)
deriving DecidableEq

/-- `run`.  `configUrls` models the configuration stages (``InfraConfig``
loading, repo-section lookup, repo-definition lookup and `repo_urls`), whose
failures all surface as `crate::repo::Error`, i.e. the `Repo` variant.  Only
after they succeed is `buildsys_name_friendly.to_str().unwrap()` evaluated: a
non-UTF-8 path makes `to_str` return `None` and the `unwrap` panic.  Otherwise
`fetch_varaint` runs with the decoded name. -/
def run (configUrls : Except RepoErr (String × String))
    (loadRepo : String → String → Except RepoErr Repository)
    (lz4 : Lz4Lib) (openErr : String → Option IOErr)
    (buildsys_name_friendly : List Nat) (outdir : String) (fs0 : FS) :
    RunOutcome :=
  match configUrls with
  | .error e => .completed ⟨.error (.Repo e), fs0, []⟩
  | .ok (metadataUrl, targetsUrl) =>
    match osToStr buildsys_name_friendly with
    | none => .panicked
    | some v =>
        .completed
          (fetchVaraint loadRepo lz4 openErr metadataUrl targetsUrl outdir v
            fs0)

/-- Whether a character list contains two consecutive dots. -/
def hasDotDot : List Char → Bool
  | [] => false
  | [_] => false
  | c1 :: c2 :: rest =>
      (decide (c1 = '.') && decide (c2 = '.')) || hasDotDot (c2 :: rest)

/-- Modelled from the spec: the external collaborator's target-name validation
(`tough`'s `TargetName::try_from`, which is not part of this repository's
sources).  Per the spec it must reject identifiers containing path-traversal
sequences such as `".."` before use. -/
def specValidateName (s : String) : Except ToughErr Unit :=
  if hasDotDot s.data then .error (.mk "unsafe target name") else .ok ()

/-- Whether a pipeline result is a `TargetMissing` error. -/
def isTargetMissingErr : Except Error Unit → Bool
  | .error (.TargetMissing _) => true
  | _ => false

/-- Whether a pipeline result is a `TargetRead` error. -/
def isTargetReadErr : Except Error Unit → Bool
  | .error (.TargetRead _ _) => true
  | _ => false

/-- Whether a pipeline result is a `Lz4Decode` error. -/
def isLz4DecodeErr : Except Error Unit → Bool
  | .error (.Lz4Decode _ _) => true
  | _ => false

/-- Whether a pipeline result is a `TargetName` error. -/
def isTargetNameErr : Except Error Unit → Bool
  | .error (.TargetName _ _) => true
  | _ => false

/-! ## Concrete collaborator behaviours used by witnesses and counterexamples -/

/-- An LZ4 library behaviour on which every frame header is accepted and the
stream decodes to itself with no defect. -/
def idLz4 : Lz4Lib := ⟨fun _ => .ok (), fun c => (c, none)⟩

/-- An LZ4 library behaviour on a stream that is truncated mid-frame:
construction succeeds, and two bytes decode before the truncation is detected
during the copy. -/
def truncLz4 : Lz4Lib :=
  ⟨fun _ => .ok (), fun _ => ([7, 7], some (.mk "truncated mid-frame"))⟩

/-- An LZ4 library behaviour on a stream whose frame header is invalid:
construction succeeds (it does not read the stream), and the defect is
detected at the first read during the copy, before any byte decodes. -/
def hdrFailLz4 : Lz4Lib :=
  ⟨fun _ => .ok (), fun _ => ([], some (.mk "invalid frame header"))⟩

/-- An LZ4 library behaviour on which decoder construction itself fails
(decompression-context allocation), independently of the stream's content. -/
def ctxFailLz4 : Lz4Lib :=
  ⟨fun _ => .error (.mk "context allocation failed"), fun _ => ([], none)⟩

/-- A destination-open behaviour that always succeeds. -/
def noOpenErr : String → Option IOErr := fun _ => none

/-- A repository accepting every target name, holding one target
`"worker.img.lz4"` with verified content `[1, 2]`, failing to stream
`"flaky.img.lz4"`, and listing nothing else. -/
def wRepo : Repository :=
  ⟨fun _ => .ok (),
   fun t =>
     if t = "worker.img.lz4" then .stream [1, 2]
     else if t = "flaky.img.lz4" then .errored (.mk "network timeout")
     else .absent⟩

/-! ## Helper lemmas -/

theorem fsGet_fsSet (fs : FS) (p : String) (c : Bytes) :
    fsGet (fsSet fs p c) p = some c := by
  induction fs with
  | nil => simp [fsGet, fsSet]
  | cons hd tl ih =>
    obtain ⟨q, d⟩ := hd
    by_cases h : q = p
    · simp [fsGet, fsSet, h]
    · simp [fsGet, fsSet, h, ih]

/-! ## Claim C1 -/

/-- C1 (counterexample): with a pre-existing destination file `[9, 9, 9, 9]`
longer than the decompressed content `[1, 2]`, a successful run leaves the
file holding `[1, 2, 9, 9]`, not the decompressed content alone — the open is
`create` without `truncate`, so bytes of the pre-existing file survive. -/
theorem c1_counterexample :
    (downloadTarget idLz4 noOpenErr wRepo "worker.img.lz4" "out"
        [("out/worker.img.lz4", [9, 9, 9, 9])]).result = .ok ()
    ∧ fsGet (downloadTarget idLz4 noOpenErr wRepo "worker.img.lz4" "out"
        [("out/worker.img.lz4", [9, 9, 9, 9])]).fs "out/worker.img.lz4"
        = some [1, 2, 9, 9]
    ∧ fsGet (downloadTarget idLz4 noOpenErr wRepo "worker.img.lz4" "out"
        [("out/worker.img.lz4", [9, 9, 9, 9])]).fs "out/worker.img.lz4"
        ≠ some (idLz4.decodeRest [1, 2]).1 := by
  decide

/-- C1 (amended): on a successful pipeline run the destination file holds the
decompressed content followed by any tail of a pre-existing file beyond the
decompressed length (the open does not truncate); in particular, when no file
pre-existed at the destination path, the content is exactly the decompressed
content. -/
theorem c1_download_writes_decompressed
    (lz4 : Lz4Lib) (openErr : String → Option IOErr) (repo : Repository)
    (target outdir : String) (fs0 : FS) (compressed out : Bytes)
    (hv : repo.validateName target = .ok ())
    (hr : repo.readTarget target = .stream compressed)
    (hh : lz4.newDecoder compressed = .ok ())
    (ho : openErr (pathJoin outdir target) = none)
    (hd : lz4.decodeRest compressed = (out, none)) :
    (downloadTarget lz4 openErr repo target outdir fs0).result = .ok ()
    ∧ fsGet (downloadTarget lz4 openErr repo target outdir fs0).fs
        (pathJoin outdir target)
      = some (out ++
          ((fsGet fs0 (pathJoin outdir target)).getD []).drop out.length)
    ∧ (fsGet fs0 (pathJoin outdir target) = none →
        fsGet (downloadTarget lz4 openErr repo target outdir fs0).fs
          (pathJoin outdir target) = some out) := by
  simp only [downloadTarget, hv, hr, hh, ho, hd]
  refine ⟨trivial, fsGet_fsSet .., fun h => ?_⟩
  rw [fsGet_fsSet]
  simp [h]

/-- C1 (witness): fetching `"worker.img.lz4"` from `wRepo` into an empty
filesystem succeeds and writes exactly the decompressed bytes `[1, 2]`. -/
theorem c1_witness :
    (downloadTarget idLz4 noOpenErr wRepo "worker.img.lz4" "out" []).result
        = .ok ()
    ∧ fsGet (downloadTarget idLz4 noOpenErr wRepo "worker.img.lz4" "out"
          []).fs (pathJoin "out" "worker.img.lz4")
      = some (([1, 2] : Bytes) ++
          ((fsGet [] (pathJoin "out" "worker.img.lz4")).getD []).drop
            ([1, 2] : Bytes).length)
    ∧ (fsGet ([] : FS) (pathJoin "out" "worker.img.lz4") = none →
        fsGet (downloadTarget idLz4 noOpenErr wRepo "worker.img.lz4" "out"
            []).fs (pathJoin "out" "worker.img.lz4") = some [1, 2]) :=
  c1_download_writes_decompressed idLz4 noOpenErr wRepo "worker.img.lz4"
    "out" [] [1, 2] [1, 2] (by decide) (by decide) (by decide) (by decide)
    (by decide)

/-! ## Claim C2 -/

/-- C2 (counterexample): neither a stream truncated mid-frame nor one with an
invalid frame header is reported as the `Lz4Decode` (DecompressionError) kind
the claim requires: both defects surface while the decoder is read during the
copy phase (`lz4::Decoder::new` does not read the stream, so even the frame
header is only parsed at the first read) and are reported as `WriteUpdate`. -/
theorem c2_counterexample :
    ((downloadTarget truncLz4 noOpenErr wRepo "worker.img.lz4" "out"
        []).result = .error (.WriteUpdate (.mk "truncated mid-frame"))
    ∧ isLz4DecodeErr
        (downloadTarget truncLz4 noOpenErr wRepo "worker.img.lz4" "out"
          []).result = false)
    ∧ ((downloadTarget hdrFailLz4 noOpenErr wRepo "worker.img.lz4" "out"
        []).result = .error (.WriteUpdate (.mk "invalid frame header"))
    ∧ isLz4DecodeErr
        (downloadTarget hdrFailLz4 noOpenErr wRepo "worker.img.lz4" "out"
          []).result = false) := by
  decide

/-- C2 (amended): every defect of the compressed stream — malformed data,
truncation mid-frame, or an invalid frame header — is detected while the
decoder is read during the copy (the `lz4` library parses the frame header on
the first read; `Decoder::new` reads nothing) and is reported as
`WriteUpdate`; the `Lz4Decode` kind arises only when decoder construction
itself fails (context allocation, an outcome independent of the stream's
content), and then carries the target name. -/
theorem c2_decode_error_kinds
    (lz4 : Lz4Lib) (openErr : String → Option IOErr) (repo : Repository)
    (target outdir : String) (fs0 : FS) (compressed : Bytes)
    (hv : repo.validateName target = .ok ())
    (hr : repo.readTarget target = .stream compressed) :
    (∀ e, lz4.newDecoder compressed = .error e →
      (downloadTarget lz4 openErr repo target outdir fs0).result
        = .error (.Lz4Decode target e))
    ∧ (∀ out e, lz4.newDecoder compressed = .ok () →
        openErr (pathJoin outdir target) = none →
        lz4.decodeRest compressed = (out, some e) →
        (downloadTarget lz4 openErr repo target outdir fs0).result
          = .error (.WriteUpdate e)) := by
  constructor
  · intro e he
    simp [downloadTarget, hv, hr, he]
  · intro out e hh ho hd
    simp [downloadTarget, hv, hr, hh, ho, hd]

/-- C2 (witness): a decoder-construction (context-allocation) failure on
target `"worker.img.lz4"` is reported as `Lz4Decode` carrying that target
name, while an invalid frame header — detected at the first read during the
copy — is reported as `WriteUpdate`. -/
theorem c2_witness :
    (downloadTarget ctxFailLz4 noOpenErr wRepo "worker.img.lz4" "out"
        []).result
      = .error (.Lz4Decode "worker.img.lz4" (.mk "context allocation failed"))
    ∧ (downloadTarget hdrFailLz4 noOpenErr wRepo "worker.img.lz4" "out"
        []).result = .error (.WriteUpdate (.mk "invalid frame header")) :=
  ⟨(c2_decode_error_kinds ctxFailLz4 noOpenErr wRepo "worker.img.lz4" "out"
      [] [1, 2] (by decide) (by decide)).1 (.mk "context allocation failed")
      (by decide),
    (c2_decode_error_kinds hdrFailLz4 noOpenErr wRepo "worker.img.lz4" "out"
      [] [1, 2] (by decide) (by decide)).2 [] (.mk "invalid frame header")
      (by decide) (by decide) (by decide)⟩

/-! ## Claim C3 -/

/-- C3: with the collaborator's target-name validation modelled from the spec
(rejecting identifiers containing a `".."` path-traversal sequence), any such
identifier fails with `TargetName` and the run performs no external access at
all: `read_target` is never invoked, no file is opened (the event trace is
empty), and the filesystem is unchanged. -/
theorem c3_traversal_rejected_before_access
    (lz4 : Lz4Lib) (openErr : String → Option IOErr)
    (readT : String → ReadOutcome) (target outdir : String) (fs0 : FS)
    (hdd : hasDotDot target.data = true) :
    (downloadTarget lz4 openErr ⟨specValidateName, readT⟩ target outdir
        fs0).result
      = .error (.TargetName target (.mk "unsafe target name"))
    ∧ (downloadTarget lz4 openErr ⟨specValidateName, readT⟩ target outdir
        fs0).events = []
    ∧ (downloadTarget lz4 openErr ⟨specValidateName, readT⟩ target outdir
        fs0).fs = fs0 := by
  simp [downloadTarget, specValidateName, hdd]

/-- C3 (witness): the identifier `"../../etc/passwd"` contains a traversal
sequence and is rejected with `TargetName` before any access. -/
theorem c3_witness :
    (downloadTarget idLz4 noOpenErr ⟨specValidateName, wRepo.readTarget⟩
        "../../etc/passwd" "out" []).result
      = .error (.TargetName "../../etc/passwd" (.mk "unsafe target name"))
    ∧ (downloadTarget idLz4 noOpenErr ⟨specValidateName, wRepo.readTarget⟩
        "../../etc/passwd" "out" []).events = []
    ∧ (downloadTarget idLz4 noOpenErr ⟨specValidateName, wRepo.readTarget⟩
        "../../etc/passwd" "out" []).fs = [] :=
  c3_traversal_rejected_before_access idLz4 noOpenErr wRepo.readTarget
    "../../etc/passwd" "out" [] (by decide)

/-! ## Claim C4 -/

/-- C4: with a validated name, the three outcomes of target resolution map to
three distinct continuations: `Ok(None)` yields `TargetMissing`, `Err` yields
`TargetRead`, and `Ok(Some(stream))` proceeds past resolution — its result is
never `TargetMissing` nor `TargetRead`; moreover the two kinds are distinct
constructors, never collapsed into one another. -/
theorem c4_resolution_trichotomy
    (lz4 : Lz4Lib) (openErr : String → Option IOErr) (repo : Repository)
    (target outdir : String) (fs0 : FS)
    (hv : repo.validateName target = .ok ()) :
    (repo.readTarget target = .absent →
      (downloadTarget lz4 openErr repo target outdir fs0).result
        = .error (.TargetMissing target))
    ∧ (∀ e, repo.readTarget target = .errored e →
        (downloadTarget lz4 openErr repo target outdir fs0).result
          = .error (.TargetRead target e))
    ∧ (∀ c, repo.readTarget target = .stream c →
        isTargetMissingErr
            (downloadTarget lz4 openErr repo target outdir fs0).result
          = false
        ∧ isTargetReadErr
            (downloadTarget lz4 openErr repo target outdir fs0).result
          = false)
    ∧ (∀ t e, Error.TargetMissing t ≠ Error.TargetRead t e) := by
  refine ⟨fun ha => by simp [downloadTarget, hv, ha],
    fun e he => by simp [downloadTarget, hv, he],
    fun c hc => ?_, fun t e => by simp⟩
  cases hh : lz4.newDecoder c with
  | error e =>
    simp [downloadTarget, hv, hc, hh, isTargetMissingErr, isTargetReadErr]
  | ok u =>
    cases u
    cases ho : openErr (pathJoin outdir target) with
    | some e =>
      simp [downloadTarget, hv, hc, hh, ho, isTargetMissingErr,
        isTargetReadErr]
    | none =>
      cases hd : (lz4.decodeRest c).2 with
      | some e =>
        simp [downloadTarget, hv, hc, hh, ho, hd, isTargetMissingErr,
          isTargetReadErr]
      | none =>
        simp [downloadTarget, hv, hc, hh, ho, hd, isTargetMissingErr,
          isTargetReadErr]

/-- C4 (witness): resolving the absent target `"missing.img.lz4"` yields the
`TargetMissing` kind. -/
theorem c4_witness :
    (downloadTarget idLz4 noOpenErr wRepo "missing.img.lz4" "out" []).result
      = .error (.TargetMissing "missing.img.lz4") :=
  (c4_resolution_trichotomy idLz4 noOpenErr wRepo "missing.img.lz4" "out" []
    (by decide)).1 (by decide)

/-! ## Claim C5 -/

/-- C5: when the validated target is absent from the repository's manifest
the pipeline returns `TargetMissing` and the destination is neither created
nor modified: the filesystem is returned unchanged and no file-open event
occurs. -/
theorem c5_missing_leaves_fs_unchanged
    (lz4 : Lz4Lib) (openErr : String → Option IOErr) (repo : Repository)
    (target outdir : String) (fs0 : FS)
    (hv : repo.validateName target = .ok ())
    (ha : repo.readTarget target = .absent) :
    (downloadTarget lz4 openErr repo target outdir fs0).result
      = .error (.TargetMissing target)
    ∧ (downloadTarget lz4 openErr repo target outdir fs0).fs = fs0
    ∧ ((downloadTarget lz4 openErr repo target outdir fs0).events.all
        (fun ev => !isOpenEvent ev)) = true := by
  simp [downloadTarget, hv, ha, isOpenEvent]

/-- C5 (witness): fetching the absent `"missing.img.lz4"` over a filesystem
holding one unrelated file returns `TargetMissing` and leaves the filesystem
exactly as it was. -/
theorem c5_witness :
    (downloadTarget idLz4 noOpenErr wRepo "missing.img.lz4" "out"
        [("other", [5])]).result = .error (.TargetMissing "missing.img.lz4")
    ∧ (downloadTarget idLz4 noOpenErr wRepo "missing.img.lz4" "out"
        [("other", [5])]).fs = [("other", [5])]
    ∧ ((downloadTarget idLz4 noOpenErr wRepo "missing.img.lz4" "out"
        [("other", [5])]).events.all (fun ev => !isOpenEvent ev)) = true :=
  c5_missing_leaves_fs_unchanged idLz4 noOpenErr wRepo "missing.img.lz4"
    "out" [("other", [5])] (by decide) (by decide)

/-! ## Claim C6 -/

/-- A destination-open behaviour that always fails. -/
def denyOpen : String → Option IOErr := fun _ => some (.mk "permission denied")

/-- C6 (counterexample): a pipeline failure during the copy phase produces a
`WriteUpdate` error that carries no path at all — the `WriteUpdate` variant
has no path field, contradicting the claim that it carries the attempted
destination path. -/
theorem c6_counterexample :
    (downloadTarget truncLz4 noOpenErr wRepo "worker.img.lz4" "out"
        [("unrelated", [3])]).result
      = .error (.WriteUpdate (.mk "truncated mid-frame"))
    ∧ errorPath (.WriteUpdate (.mk "truncated mid-frame")) = none := by
  decide

/-- C6 (amended): every `OpenImageFile` error produced by the pipeline
carries the attempted destination path as its context; a `WriteUpdate` error
carries only the underlying I/O error and no path. -/
theorem c6_error_path_context
    (lz4 : Lz4Lib) (openErr : String → Option IOErr) (repo : Repository)
    (target outdir : String) (fs0 : FS) (compressed : Bytes)
    (hv : repo.validateName target = .ok ())
    (hr : repo.readTarget target = .stream compressed)
    (hh : lz4.newDecoder compressed = .ok ()) :
    (∀ e, openErr (pathJoin outdir target) = some e →
      (downloadTarget lz4 openErr repo target outdir fs0).result
        = .error (.OpenImageFile (pathJoin outdir target) e)
      ∧ errorPath (.OpenImageFile (pathJoin outdir target) e)
        = some (pathJoin outdir target))
    ∧ (∀ e, errorPath (.WriteUpdate e) = none) := by
  refine ⟨fun e ho => ⟨?_, rfl⟩, fun e => rfl⟩
  simp [downloadTarget, hv, hr, hh, ho]

/-- C6 (witness): when opening the destination fails, the error is
`OpenImageFile` carrying exactly the attempted path
`"out" ++ "/" ++ "worker.img.lz4"`. -/
theorem c6_witness :
    (downloadTarget idLz4 denyOpen wRepo "worker.img.lz4" "out" []).result
      = .error (.OpenImageFile (pathJoin "out" "worker.img.lz4")
          (.mk "permission denied"))
    ∧ errorPath (.OpenImageFile (pathJoin "out" "worker.img.lz4")
          (.mk "permission denied"))
      = some (pathJoin "out" "worker.img.lz4") :=
  (c6_error_path_context idLz4 denyOpen wRepo "worker.img.lz4" "out" []
    [1, 2] (by decide) (by decide) (by decide)).1 (.mk "permission denied")
    (by decide)

/-! ## Claim C7 -/

/-- C7: `fetch_varaint` constructs the target identifier exactly as
`"{variant_name}.img.lz4"`, and a successful run opens and creates exactly
one file in the output directory whose name is exactly that identifier — the
compression suffix is not stripped. -/
theorem c7_target_naming
    (loadRepo : String → String → Except RepoErr Repository) (lz4 : Lz4Lib)
    (openErr : String → Option IOErr) (mUrl tUrl outdir v : String)
    (fs0 : FS) (repo : Repository) (compressed out : Bytes)
    (hl : loadRepo mUrl tUrl = .ok repo)
    (hv : repo.validateName (mkTarget v) = .ok ())
    (hr : repo.readTarget (mkTarget v) = .stream compressed)
    (hh : lz4.newDecoder compressed = .ok ())
    (ho : openErr (pathJoin outdir (mkTarget v)) = none)
    (hd : lz4.decodeRest compressed = (out, none)) :
    mkTarget v = v ++ ".img.lz4"
    ∧ (fetchVaraint loadRepo lz4 openErr mUrl tUrl outdir v fs0).result
      = .ok ()
    ∧ (fetchVaraint loadRepo lz4 openErr mUrl tUrl outdir v fs0).events
      = [.readTarget (mkTarget v), .openFile (pathJoin outdir (mkTarget v))]
    ∧ (fsGet (fetchVaraint loadRepo lz4 openErr mUrl tUrl outdir v fs0).fs
        (pathJoin outdir (mkTarget v))).isSome = true := by
  refine ⟨rfl, ?_, ?_, ?_⟩ <;>
    simp [fetchVaraint, hl, downloadTarget, hv, hr, hh, ho, hd, fsGet_fsSet]

/-- C7 (witness): for variant name `"worker"` the constructed identifier is
`"worker.img.lz4"` and the created file is `out/worker.img.lz4`. -/
theorem c7_witness :
    mkTarget "worker" = "worker" ++ ".img.lz4"
    ∧ (fetchVaraint (fun _ _ => .ok wRepo) idLz4 noOpenErr "https://m"
        "https://t" "out" "worker" []).result = .ok ()
    ∧ (fetchVaraint (fun _ _ => .ok wRepo) idLz4 noOpenErr "https://m"
        "https://t" "out" "worker" []).events
      = [.readTarget (mkTarget "worker"),
         .openFile (pathJoin "out" (mkTarget "worker"))]
    ∧ (fsGet (fetchVaraint (fun _ _ => .ok wRepo) idLz4 noOpenErr "https://m"
        "https://t" "out" "worker" []).fs
        (pathJoin "out" (mkTarget "worker"))).isSome = true :=
  c7_target_naming (fun _ _ => .ok wRepo) idLz4 noOpenErr "https://m"
    "https://t" "out" "worker" [] wRepo [1, 2] [1, 2] rfl (by decide)
    (by decide) (by decide) (by decide) (by decide)

/-! ## Claim C8 -/

/-- On fully successful collaborator outcomes, `download_target` returns
`Ok(())` and writes the decoded bytes over the old content without
truncation. -/
theorem downloadTarget_ok_spec
    (lz4 : Lz4Lib) (openErr : String → Option IOErr) (repo : Repository)
    (target outdir : String) (fs0 : FS) (compressed out : Bytes)
    (hv : repo.validateName target = .ok ())
    (hr : repo.readTarget target = .stream compressed)
    (hh : lz4.newDecoder compressed = .ok ())
    (ho : openErr (pathJoin outdir target) = none)
    (hd : lz4.decodeRest compressed = (out, none)) :
    downloadTarget lz4 openErr repo target outdir fs0
      = ⟨.ok (),
         fsSet fs0 (pathJoin outdir target)
           (out ++
             ((fsGet fs0 (pathJoin outdir target)).getD []).drop out.length),
         [.readTarget target, .openFile (pathJoin outdir target)]⟩ := by
  simp [downloadTarget, hv, hr, hh, ho, hd]

/-- C8: running the pipeline twice in succession against an unchanged
repository and unchanged target succeeds both times and leaves the
destination with byte-identical content after each of the two runs. -/
theorem c8_idempotent
    (lz4 : Lz4Lib) (openErr : String → Option IOErr) (repo : Repository)
    (target outdir : String) (fs0 : FS) (compressed out : Bytes)
    (hv : repo.validateName target = .ok ())
    (hr : repo.readTarget target = .stream compressed)
    (hh : lz4.newDecoder compressed = .ok ())
    (ho : openErr (pathJoin outdir target) = none)
    (hd : lz4.decodeRest compressed = (out, none)) :
    (downloadTarget lz4 openErr repo target outdir fs0).result = .ok ()
    ∧ (downloadTarget lz4 openErr repo target outdir
        (downloadTarget lz4 openErr repo target outdir fs0).fs).result
      = .ok ()
    ∧ fsGet (downloadTarget lz4 openErr repo target outdir
          (downloadTarget lz4 openErr repo target outdir fs0).fs).fs
        (pathJoin outdir target)
      = fsGet (downloadTarget lz4 openErr repo target outdir fs0).fs
          (pathJoin outdir target) := by
  rw [downloadTarget_ok_spec lz4 openErr repo target outdir fs0 compressed
      out hv hr hh ho hd]
  rw [downloadTarget_ok_spec lz4 openErr repo target outdir _ compressed
      out hv hr hh ho hd]
  refine ⟨rfl, rfl, ?_⟩
  rw [fsGet_fsSet, fsGet_fsSet]
  simp [List.drop_left]

/-- C8 (witness): two successive fetches of `"worker.img.lz4"` from `wRepo`
both succeed and leave identical destination content. -/
theorem c8_witness :
    (downloadTarget idLz4 noOpenErr wRepo "worker.img.lz4" "out" []).result
      = .ok ()
    ∧ (downloadTarget idLz4 noOpenErr wRepo "worker.img.lz4" "out"
        (downloadTarget idLz4 noOpenErr wRepo "worker.img.lz4" "out"
          []).fs).result = .ok ()
    ∧ fsGet (downloadTarget idLz4 noOpenErr wRepo "worker.img.lz4" "out"
          (downloadTarget idLz4 noOpenErr wRepo "worker.img.lz4" "out"
            []).fs).fs (pathJoin "out" "worker.img.lz4")
      = fsGet (downloadTarget idLz4 noOpenErr wRepo "worker.img.lz4" "out"
          []).fs (pathJoin "out" "worker.img.lz4") :=
  c8_idempotent idLz4 noOpenErr wRepo "worker.img.lz4" "out" [] [1, 2]
    [1, 2] (by decide) (by decide) (by decide) (by decide) (by decide)

/-! ## Claim C9 -/

/-- The repository with its target-name validation modelled from the spec and
`wRepo`'s content. -/
def strictRepo : Repository := ⟨specValidateName, wRepo.readTarget⟩

/-- C9: whenever the pipeline fails with `TargetName`, `TargetRead`, or
`Lz4Decode` (which arises only at decoder construction), the destination is
never created or modified: the filesystem is returned unchanged and no
file-open event occurred — every filesystem write to the destination happens
only after name validation, target resolution and decoder construction have
all succeeded. -/
theorem c9_no_write_before_decoder
    (lz4 : Lz4Lib) (openErr : String → Option IOErr) (repo : Repository)
    (target outdir : String) (fs0 : FS)
    (h : (isTargetNameErr
            (downloadTarget lz4 openErr repo target outdir fs0).result
          || isTargetReadErr
              (downloadTarget lz4 openErr repo target outdir fs0).result
          || isLz4DecodeErr
              (downloadTarget lz4 openErr repo target outdir fs0).result)
         = true) :
    (downloadTarget lz4 openErr repo target outdir fs0).fs = fs0
    ∧ ((downloadTarget lz4 openErr repo target outdir fs0).events.all
        (fun ev => !isOpenEvent ev)) = true := by
  cases hv : repo.validateName target with
  | error e => simp [downloadTarget, hv, isOpenEvent]
  | ok u =>
    cases u
    cases hr : repo.readTarget target with
    | absent =>
      simp [downloadTarget, hv, hr, isTargetNameErr, isTargetReadErr,
        isLz4DecodeErr] at h
    | errored e => simp [downloadTarget, hv, hr, isOpenEvent]
    | stream c =>
      cases hh : lz4.newDecoder c with
      | error e => simp [downloadTarget, hv, hr, hh, isOpenEvent]
      | ok u2 =>
        cases u2
        cases ho : openErr (pathJoin outdir target) with
        | some e =>
          simp [downloadTarget, hv, hr, hh, ho, isTargetNameErr,
            isTargetReadErr, isLz4DecodeErr] at h
        | none =>
          cases hd : (lz4.decodeRest c).2 with
          | some e =>
            simp [downloadTarget, hv, hr, hh, ho, hd, isTargetNameErr,
              isTargetReadErr, isLz4DecodeErr] at h
          | none =>
            simp [downloadTarget, hv, hr, hh, ho, hd, isTargetNameErr,
              isTargetReadErr, isLz4DecodeErr] at h

/-- C9 (witness): a `TargetName` failure (the traversal name `"../evil"`
rejected by the spec-modelled validator) leaves a one-file filesystem exactly
as it was and opens no file. -/
theorem c9_witness :
    (downloadTarget idLz4 noOpenErr strictRepo "../evil" "out"
        [("other", [5])]).fs = [("other", [5])]
    ∧ ((downloadTarget idLz4 noOpenErr strictRepo "../evil" "out"
        [("other", [5])]).events.all (fun ev => !isOpenEvent ev)) = true :=
  c9_no_write_before_decoder idLz4 noOpenErr strictRepo "../evil" "out"
    [("other", [5])] (by decide)

/-! ## Claim C10 -/

/-- C10 (counterexample): with the single byte `0xFF` (not valid UTF-8) as
`buildsys_name_friendly` but configuration loading failing first, `run`
returns the tagged `Repo` error and does not panic — so not every invocation
with a non-UTF-8 name panics. -/
theorem c10_counterexample :
    osToStr [255] = none
    ∧ run (.error (.mk "missing Infra.toml")) (fun _ _ => .ok wRepo) idLz4
        noOpenErr [255] "out" []
      = .completed ⟨.error (.Repo (.mk "missing Infra.toml")), [], []⟩
    ∧ run (.error (.mk "missing Infra.toml")) (fun _ _ => .ok wRepo) idLz4
        noOpenErr [255] "out" [] ≠ .panicked := by
  decide

/-- C10 (amended): in every invocation of `run` in which configuration
loading and URL resolution succeed and `buildsys_name_friendly` is not valid
UTF-8, `run` panics via the `unwrap` on `to_str` rather than returning any
tagged error kind; when an earlier stage fails, its tagged error is returned
before the name is examined. -/
theorem c10_invalid_utf8_panics
    (loadRepo : String → String → Except RepoErr Repository) (lz4 : Lz4Lib)
    (openErr : String → Option IOErr) (e0 : RepoErr)
    (urls : String × String) (name : List Nat) (outdir : String) (fs0 : FS)
    (hn : osToStr name = none) :
    run (.ok urls) loadRepo lz4 openErr name outdir fs0 = .panicked
    ∧ run (.error e0) loadRepo lz4 openErr name outdir fs0
      = .completed ⟨.error (.Repo e0), fs0, []⟩ := by
  obtain ⟨mUrl, tUrl⟩ := urls
  exact ⟨by simp [run, hn], rfl⟩

/-- C10 (witness): with working configuration and the non-UTF-8 name byte
`0xFF`, `run` panics; with failing configuration it returns the `Repo`
error. -/
theorem c10_witness :
    run (.ok ("https://m", "https://t")) (fun _ _ => .ok wRepo) idLz4
        noOpenErr [255] "out" [] = .panicked
    ∧ run (.error (.mk "bad config")) (fun _ _ => .ok wRepo) idLz4 noOpenErr
        [255] "out" []
      = .completed ⟨.error (.Repo (.mk "bad config")), [], []⟩ :=
  c10_invalid_utf8_panics (fun _ _ => .ok wRepo) idLz4 noOpenErr
    (.mk "bad config") ("https://m", "https://t") [255] "out" [] (by decide)

end FetchVariant
